import Mathlib

/-!
Shallow embedding of the blog service layer (`app/services/*`, `app/dependencies.py`,
`app/api/v1/endpoints/posts.py`) and proofs about the specified behaviour.

Modelling conventions:
* UUIDs are `Nat`, dates are `Nat`, the database session is an explicit `DB` value.
* SQLAlchemy queries over a table become list operations over the corresponding
  `DB` field; `ORDER BY k DESC LIMIT n` becomes `insertionSort` by the descending
  key followed by `take n`.
* `HTTPException` outcomes become constructors of `ApiError`; a python function
  that may raise returns `Except ApiError _`.
* JWT signing (`python-jose`) is abstracted by an arbitrary signing function
  `sign : Payload → Nat`; a token is either a well-formed pair of payload and
  signature bytes, or malformed (undecodable).
-/

namespace Blog

/-- A row of the `users` table (`app/models/user.py`), restricted to the columns
the service layer reads. -/
structure User where
  id : Nat
  username : String
  is_active : Bool
  is_superuser : Bool
deriving Repr, DecidableEq

/-- A row of the `categories` table (`app/models/category.py`). -/
structure Category where
  id : Nat
  name : String
  slug : String
  description : Option String
  color : Option String
deriving Repr, DecidableEq

/-- A row of the `posts` table (`app/models/post.py`); `categories` holds the ids
from the `post_categories` association table rows of this post. -/
structure Post where
  id : Nat
  title : String
  slug : String
  excerpt : Option String
  content : String
  image_url : Option String
  published_at : Option Nat
  is_published : Bool
  is_featured : Bool
  meta_title : Option String
  meta_description : Option String
  author_id : Nat
  categories : List Nat
deriving Repr, DecidableEq

/-- The database state: the three entity tables (the `post_categories`
association rows are carried inside each `Post`). -/
structure DB where
  users : List User
  categories : List Category
  posts : List Post
deriving Repr, DecidableEq

/-- The typed failures raised by the service/authorization layer
(`HTTPException`s distinguished by status code and detail string). -/
inductive ApiError where
  | unauthorized
  | inactiveAccount
  | forbidden
  | notFound
  | conflict
  | validationError
deriving Repr, DecidableEq

/-! ### Credential service (`app/services/auth_service.py`) -/

/-- The JWT claims written by `create_access_token`: subject and expiry. -/
structure Payload where
  sub : String
  exp : Nat
deriving Repr, DecidableEq

/-- A bearer token: either a decodable payload with signature bytes, or a
malformed blob `jwt.decode` rejects outright. -/
inductive Token where
  | signed (payload : Payload) (sig : Nat)
  | malformed
deriving Repr, DecidableEq

/-- The decode-and-check semantics of `jwt.decode` under
`except JWTError: return None`, as wrapped by `AuthService.verify_token`:
check signature and expiry; every decode failure (bad signature, malformed
payload, expired) yields `none`. The `settings.algorithm` lookup the method
performs before this point is modelled separately in `verify_token`. -/
def jwt_decode (sign : Payload → Nat) (now : Nat) : Token → Option Payload
  | .signed p s => if s = sign p ∧ now < p.exp then some p else none
  | .malformed => none

/-- The encode-and-sign semantics of `jwt.encode` as used by
`AuthService.create_access_token`: encode the subject with `exp = now + ttl`
and sign it. The `settings.algorithm` lookup the method performs is modelled
separately in `create_access_token`. -/
def jwt_encode (sign : Payload → Nat) (now : Nat) (sub : String)
    (ttl : Nat) : Token :=
  .signed ⟨sub, now + ttl⟩ (sign ⟨sub, now + ttl⟩)

/-- The security-relevant fields of `config.py`'s `Settings`. The model field
`algorithm` is an `Option` because `Settings` declares no `algorithm` field at
all: `none` stands for the attribute being undeclared, whose access on the
settings object raises `AttributeError`. -/
structure Settings where
  secret_key : Option String
  access_token_expire_minutes : Nat
  algorithm : Option String
deriving Repr, DecidableEq

/-- The shipped global `settings` instance (`config.py`): `secret_key` defaults
to `None`, and no `algorithm` attribute is declared. -/
def settings : Settings :=
  { secret_key := none, access_token_expire_minutes := 30, algorithm := none }

/-- An uncaught Python exception escaping a service call. -/
inductive PyException where
  | attributeError
deriving Repr, DecidableEq

/-- `AuthService.create_access_token`: evaluates `settings.algorithm` while
building the `jwt.encode` call — raising `AttributeError` when the attribute is
undeclared, with no `try` around it — then encodes and signs the claims. -/
def create_access_token (st : Settings) (sign : Payload → Nat) (now : Nat)
    (sub : String) (ttl : Nat) : Except PyException Token :=
  match st.algorithm with
  | none => .error .attributeError
  | some _ => .ok (jwt_encode sign now sub ttl)

/-- `AuthService.verify_token`: the `try` wraps
`jwt.decode(token, settings.secret_key, algorithms=[settings.algorithm])` and
`settings.algorithm` is evaluated inside it; an `AttributeError` is not a
`JWTError`, so it propagates out of the method instead of returning `None`. -/
def verify_token (st : Settings) (sign : Payload → Nat) (now : Nat)
    (token : Token) : Except PyException (Option Payload) :=
  match st.algorithm with
  | none => .error .attributeError
  | some _ => .ok (jwt_decode sign now token)

/-- `UserService.get_by_username` (first row with the given username). -/
def get_by_username (db : DB) (username : String) : Option User :=
  db.users.find? (fun u => u.username == username)

/-- `AuthService.get_current_user_from_token`: verify the token, then look the
subject up as a username; `none` when either step fails. This models the
token-resolution logic under a configuration whose algorithm resolves; with
the shipped configuration the underlying `verify_token` call raises before
this logic runs (see the C8 theorem), which the blanket `except Exception` in
`get_current_user` maps to the same 401 outcome. -/
def get_current_user_from_token (sign : Payload → Nat) (now : Nat) (db : DB)
    (token : Token) : Option User :=
  match jwt_decode sign now token with
  | none => none
  | some payload => get_by_username db payload.sub

/-! ### Authorization guard (`app/dependencies.py`) -/

/-- The body of the `try` block of `get_current_user`: resolve the principal
(401 when the token does not resolve), then reject deactivated accounts with
the distinct 400 "Inactive user" failure. -/
def get_current_user_try (sign : Payload → Nat) (now : Nat) (db : DB)
    (token : Token) : Except ApiError User :=
  match get_current_user_from_token sign now db token with
  | none => .error .unauthorized
  | some user =>
    if user.is_active then .ok user else .error .inactiveAccount

/-- `get_current_user`: the `try` body wrapped in `except Exception: raise
credentials_exception`, which maps every raised failure — including the
"Inactive user" one raised inside the `try` — to 401 Unauthorized. The `none`
credential branch models the HTTP bearer scheme rejecting a request with no
credential before the function body runs, which the spec maps to Unauthorized. -/
def get_current_user (sign : Payload → Nat) (now : Nat) (db : DB)
    (credentials : Option Token) : Except ApiError User :=
  match credentials with
  | none => .error .unauthorized
  | some token =>
    match get_current_user_try sign now db token with
    | .ok u => .ok u
    | .error _ => .error .unauthorized

/-- `BaseService.get` specialized at `Post` (row with the given primary key). -/
def get_post (db : DB) (id : Nat) : Option Post :=
  db.posts.find? (fun p => p.id == id)

/-- `verify_post_ownership`: load the post (404 when missing), 403 unless the
current user is the author or a superuser, otherwise return the user. -/
def verify_post_ownership (db : DB) (post_id : Nat) (current_user : User) :
    Except ApiError User :=
  match get_post db post_id with
  | none => .error .notFound
  | some post =>
    if post.author_id != current_user.id && !current_user.is_superuser then
      .error .forbidden
    else
      .ok current_user

/-! ### Post service (`app/services/post_service.py`) -/

/-- `PostCreate` (`app/schemas/post.py`): every field of the create input. -/
structure PostCreate where
  title : String
  slug : String
  excerpt : Option String
  content : String
  image_url : Option String
  meta_title : Option String
  meta_description : Option String
  category_ids : List Nat
  published_at : Option Nat
  is_published : Bool
  is_featured : Bool
deriving Repr, DecidableEq

/-- `PostUpdate` (`app/schemas/post.py`): the outer `Option` is pydantic
field presence (`exclude_unset`); for a nullable column the inner `Option` is
the stored value, so `some none` is "explicitly present with value null". -/
structure PostUpdate where
  title : Option String := none
  slug : Option String := none
  excerpt : Option (Option String) := none
  content : Option String := none
  image_url : Option (Option String) := none
  category_ids : Option (List Nat) := none
  published_at : Option (Option Nat) := none
  is_published : Option Bool := none
  is_featured : Option Bool := none
  meta_title : Option (Option String) := none
  meta_description : Option (Option String) := none
deriving Repr, DecidableEq

/-- `PostService.get_by_slug` (first post row with the given slug). -/
def get_by_slug (db : DB) (slug : String) : Option Post :=
  db.posts.find? (fun p => p.slug == slug)

/-- `db.query(Category).filter(Category.id.in_(ids)).all()`: the category rows
whose id occurs in `ids` (each row at most once, as in the relational query). -/
def resolve_categories (db : DB) (ids : List Nat) : List Category :=
  db.categories.filter (fun c => ids.contains c.id)

/-- The primary key the store assigns to a freshly inserted post. -/
def fresh_post_id (db : DB) : Nat :=
  db.posts.foldl (fun m p => max m (p.id + 1)) 0

/-- The post row `create_post` inserts (`post_data` plus the author id and the
resolved category associations). -/
def created_post (db : DB) (post_in : PostCreate) (author_id : Nat)
    (cats : List Category) : Post :=
  { id := fresh_post_id db
    title := post_in.title
    slug := post_in.slug
    excerpt := post_in.excerpt
    content := post_in.content
    image_url := post_in.image_url
    published_at := post_in.published_at
    is_published := post_in.is_published
    is_featured := post_in.is_featured
    meta_title := post_in.meta_title
    meta_description := post_in.meta_description
    author_id := author_id
    categories := cats.map (fun c => c.id) }

/-- `PostService.create_post`: Conflict when the slug exists; when category ids
were supplied, resolve them and fail ValidationError ("One or more categories
not found") unless the resolved count equals the supplied count; otherwise
insert one post row carrying the author id and the resolved associations. -/
def create_post (db : DB) (post_in : PostCreate) (author_id : Nat) :
    Except ApiError (DB × Post) :=
  match get_by_slug db post_in.slug with
  | some _ => .error .conflict
  | none =>
    let persist : List Category → Except ApiError (DB × Post) := fun cats =>
      let db_post := created_post db post_in author_id cats
      .ok ({ db with posts := db.posts ++ [db_post] }, db_post)
    if post_in.category_ids.isEmpty then
      persist []
    else
      let cats := resolve_categories db post_in.category_ids
      if cats.length = post_in.category_ids.length then
        persist cats
      else
        .error .validationError

/-- The field-by-field merge of `BaseService.update` (`model_dump(exclude_unset
=True)` then `setattr` per present field) at `Post`, with `category_ids`
excluded as `update_post` does. -/
def apply_post_update (post : Post) (u : PostUpdate) : Post :=
  { post with
    title := u.title.getD post.title
    slug := u.slug.getD post.slug
    excerpt := u.excerpt.getD post.excerpt
    content := u.content.getD post.content
    image_url := u.image_url.getD post.image_url
    published_at := u.published_at.getD post.published_at
    is_published := u.is_published.getD post.is_published
    is_featured := u.is_featured.getD post.is_featured
    meta_title := u.meta_title.getD post.meta_title
    meta_description := u.meta_description.getD post.meta_description }

/-- Committing a mutated post row back to the store. -/
def replace_post (db : DB) (p : Post) : DB :=
  { db with posts := db.posts.map (fun q => if q.id == p.id then p else q) }

/-- The slug-collision check of `PostService.update_post`: a supplied slug that
differs from the current one and belongs to a different existing post. -/
def post_slug_conflict (db : DB) (post : Post) (post_in : PostUpdate) : Bool :=
  match post_in.slug with
  | none => false
  | some s =>
    if s == post.slug then false
    else
      match get_by_slug db s with
      | none => false
      | some existing => existing.id != post.id

/-- `PostService.update_post`: 404 when the id is absent; Conflict when a
supplied slug differs from the current one and belongs to a different existing
post; when category ids are supplied they are validated as in create and
replace the association set; remaining present fields are merged. -/
def update_post (db : DB) (post_id : Nat) (post_in : PostUpdate) :
    Except ApiError (DB × Post) :=
  match get_post db post_id with
  | none => .error .notFound
  | some post =>
    if post_slug_conflict db post post_in then .error .conflict
    else
      match post_in.category_ids with
      | some ids =>
        let cats := resolve_categories db ids
        if cats.length != ids.length then .error .validationError
        else
          let updated :=
            apply_post_update { post with categories := cats.map (fun c => c.id) } post_in
          .ok (replace_post db updated, updated)
      | none =>
        let updated := apply_post_update post post_in
        .ok (replace_post db updated, updated)

/-- Descending sort key for an optional publish date (`ORDER BY published_at
DESC` with absent dates last, as SQLite orders NULLs below every value). -/
def date_key : Option Nat → Nat
  | none => 0
  | some d => d + 1

/-- "`a` sorts no later than `b`" for publish-date-descending order. -/
def published_desc (a b : Post) : Prop :=
  date_key b.published_at ≤ date_key a.published_at

instance : DecidableRel published_desc := fun a b =>
  inferInstanceAs (Decidable (date_key b.published_at ≤ date_key a.published_at))

instance : IsTotal Post published_desc :=
  ⟨fun a b => Nat.le_total (date_key b.published_at) (date_key a.published_at)⟩

instance : IsTrans Post published_desc :=
  ⟨fun _ _ _ hab hbc => Nat.le_trans hbc hab⟩

/-- `PostService.get_featured_posts`: filter `is_published AND is_featured`,
order by publish date descending, keep at most `limit` rows. -/
def get_featured_posts (db : DB) (limit : Nat) : List Post :=
  ((db.posts.filter (fun p => p.is_published && p.is_featured)).insertionSort
    published_desc).take limit

/-- `BaseService.get_multi` specialized at `Post`: `OFFSET skip LIMIT limit`
over the store's default order. -/
def get_multi (db : DB) (skip limit : Nat) : List Post :=
  (db.posts.drop skip).take limit

/-- The offset the posts endpoint passes to the service:
`skip = (page - 1) * size`. -/
def pagination_skip (page size : Nat) : Nat :=
  (page - 1) * size

/-- The total page count the posts endpoint reports:
`pages = (total + size - 1) // size` (ceiling division). -/
def pagination_pages (total size : Nat) : Nat :=
  (total + size - 1) / size

/-! ### Category service (`app/services/category_service.py`) -/

/-- `CategoryUpdate` (`app/schemas/category.py`), presence encoded as in
`PostUpdate`. -/
structure CategoryUpdate where
  name : Option String := none
  slug : Option String := none
  description : Option (Option String) := none
  color : Option (Option String) := none
deriving Repr, DecidableEq

/-- `CategoryService.get_by_slug`. -/
def category_by_slug (db : DB) (slug : String) : Option Category :=
  db.categories.find? (fun c => c.slug == slug)

/-- `CategoryService.get_by_name`. -/
def category_by_name (db : DB) (name : String) : Option Category :=
  db.categories.find? (fun c => c.name == name)

/-- `BaseService.get` specialized at `Category`. -/
def get_category (db : DB) (id : Nat) : Option Category :=
  db.categories.find? (fun c => c.id == id)

/-- The `BaseService.update` field merge at `Category`. -/
def apply_category_update (c : Category) (u : CategoryUpdate) : Category :=
  { c with
    name := u.name.getD c.name
    slug := u.slug.getD c.slug
    description := u.description.getD c.description
    color := u.color.getD c.color }

/-- Committing a mutated category row back to the store. -/
def replace_category (db : DB) (c : Category) : DB :=
  { db with categories := db.categories.map (fun d => if d.id == c.id then c else d) }

/-- The slug-collision check of `CategoryService.update_category`: a supplied
slug that differs from the current one and belongs to a different existing
category. -/
def category_slug_conflict (db : DB) (category : Category) (category_in : CategoryUpdate) :
    Bool :=
  match category_in.slug with
  | none => false
  | some s =>
    if s == category.slug then false
    else
      match category_by_slug db s with
      | none => false
      | some existing => existing.id != category.id

/-- The name-collision check of `CategoryService.update_category`, symmetric to
the slug check. -/
def category_name_conflict (db : DB) (category : Category) (category_in : CategoryUpdate) :
    Bool :=
  match category_in.name with
  | none => false
  | some n =>
    if n == category.name then false
    else
      match category_by_name db n with
      | none => false
      | some existing => existing.id != category.id

/-- `CategoryService.update_category`: 404 when the id is absent; Conflict when
a supplied slug (resp. name) differs from the current one and belongs to a
different existing category; otherwise merge the present fields. -/
def update_category (db : DB) (category_id : Nat) (category_in : CategoryUpdate) :
    Except ApiError (DB × Category) :=
  match get_category db category_id with
  | none => .error .notFound
  | some category =>
    if category_slug_conflict db category category_in then .error .conflict
    else if category_name_conflict db category category_in then .error .conflict
    else
      let updated := apply_category_update category category_in
      .ok (replace_category db updated, updated)

/-- The number of `post_categories` association rows carrying this category id. -/
def assoc_count (db : DB) (cid : Nat) : Nat :=
  (db.posts.flatMap (fun p => p.categories)).count cid

/-- "`a` sorts no later than `b`" for association-count-descending order
(`ORDER BY count(post_categories.c.post_id) DESC`). -/
def popular_desc (db : DB) (a b : Category) : Prop :=
  assoc_count db b.id ≤ assoc_count db a.id

instance (db : DB) : DecidableRel (popular_desc db) := fun a b =>
  inferInstanceAs (Decidable (assoc_count db b.id ≤ assoc_count db a.id))

instance (db : DB) : IsTotal Category (popular_desc db) :=
  ⟨fun a b => Nat.le_total (assoc_count db b.id) (assoc_count db a.id)⟩

instance (db : DB) : IsTrans Category (popular_desc db) :=
  ⟨fun _ _ _ hab hbc => Nat.le_trans hbc hab⟩

/-- `CategoryService.get_popular_categories`: inner-join `categories` with
`post_categories` (so a category with no association row is dropped), group by
category, order by association count descending, keep at most `limit` rows. -/
def get_popular_categories (db : DB) (limit : Nat) : List Category :=
  ((db.categories.filter (fun c => assoc_count db c.id != 0)).insertionSort
    (popular_desc db)).take limit

/-! ### C8: token round trip (code bug) -/

/-- C8: code bug — `config.py`'s `Settings` declares no `algorithm` field,
yet `AuthService.create_access_token` and `AuthService.verify_token` both read
`settings.algorithm`, so with the shipped configuration every call of either
raises `AttributeError` (`except JWTError` does not catch it): no token is
ever issued and verification of any token throws instead of returning invalid,
refuting the claimed round trip and the never-throws guarantee. Under a
configuration that does declare an algorithm the intended semantics hold: the
round trip returns the subject before expiry, and an expired,
signature-altered or malformed token verifies to invalid without throwing. -/
theorem c8_token_layer_raises_attribute_error
    (sign : Payload → Nat) (now t0 ttl : Nat) (sub : String) (token : Token)
    (alg : String) :
    settings.algorithm = none ∧
    create_access_token settings sign now sub ttl = .error .attributeError ∧
    verify_token settings sign now token = .error .attributeError ∧
    verify_token { settings with algorithm := some alg } sign t0
      (jwt_encode sign t0 sub (ttl + 1)) = .ok (some ⟨sub, t0 + (ttl + 1)⟩) ∧
    verify_token { settings with algorithm := some alg } sign (t0 + ttl + 1)
      (jwt_encode sign t0 sub (ttl + 1)) = .ok none ∧
    verify_token { settings with algorithm := some alg } sign t0
      (Token.signed ⟨sub, t0 + ttl + 1⟩ (sign ⟨sub, t0 + ttl + 1⟩ + 1)) = .ok none ∧
    verify_token { settings with algorithm := some alg } sign t0
      Token.malformed = .ok none := by
  refine ⟨rfl, rfl, rfl, ?_, ?_, ?_, rfl⟩
  · simp [verify_token, jwt_encode, jwt_decode]
  · simp [verify_token, jwt_encode, jwt_decode]
    omega
  · simp [verify_token, jwt_decode]

/-! ### C6: post ownership verification -/

/-- C6: for a post authored by `A`, `verify_post_ownership` returns the given
user unchanged for the author `A` and for any superuser `C`, fails Forbidden
for a non-superuser `B` who is not the author, and fails NotFound on a post id
with no row. -/
theorem c6_verify_ownership (db : DB) (pid qid : Nat) (post : Post) (A B C : User)
    (hpost : get_post db pid = some post)
    (hA : post.author_id = A.id)
    (hB : B.id ≠ post.author_id) (hBpriv : B.is_superuser = false)
    (hC : C.is_superuser = true)
    (hmissing : get_post db qid = none) :
    verify_post_ownership db pid A = .ok A ∧
    verify_post_ownership db pid C = .ok C ∧
    verify_post_ownership db pid B = .error .forbidden ∧
    verify_post_ownership db qid B = .error .notFound := by
  unfold verify_post_ownership
  rw [hpost, hmissing]
  refine ⟨?_, ?_, ?_, rfl⟩
  · simp [hA]
  · simp [hC]
  · simp [hBpriv, bne_iff_ne, Ne.symm hB]

/-- A store with one post (id 10, author 1) for the C6 witness. -/
def c6_db : DB :=
  { users := []
    categories := []
    posts := [{ id := 10, title := "t", slug := "t", excerpt := none, content := "c",
                image_url := none, published_at := none, is_published := true,
                is_featured := false, meta_title := none, meta_description := none,
                author_id := 1, categories := [] }] }

/-- The author, a non-privileged other user, and a superuser for the C6 witness. -/
def c6_author : User := { id := 1, username := "a", is_active := true, is_superuser := false }

def c6_other : User := { id := 2, username := "b", is_active := true, is_superuser := false }

def c6_admin : User := { id := 3, username := "c", is_active := true, is_superuser := true }

/-- Witness for C6 at a concrete store, post and users. -/
theorem c6_witness :
    verify_post_ownership c6_db 10 c6_author = .ok c6_author ∧
    verify_post_ownership c6_db 10 c6_admin = .ok c6_admin ∧
    verify_post_ownership c6_db 10 c6_other = .error .forbidden ∧
    verify_post_ownership c6_db 99 c6_other = .error .notFound :=
  c6_verify_ownership c6_db 10 99 (c6_db.posts.get ⟨0, by decide⟩) c6_author c6_other c6_admin
    (by decide) (by decide) (by decide) (by decide) (by decide) (by decide)

/-! ### C1: current-user resolution (code bug) -/

/-- The signing function for the C1 failing input. -/
def c1_sign : Payload → Nat := fun p => p.exp + 2 * p.sub.length

/-- A store whose only user is deactivated. -/
def c1_db : DB :=
  { users := [{ id := 1, username := "alice", is_active := false, is_superuser := false }]
    categories := []
    posts := [] }

/-- A valid, unexpired token for the deactivated user (a well-formed signed
token as a client could present it on the wire). -/
def c1_token : Token := jwt_encode c1_sign 0 "alice" 100

/-- C1: at a credential that is valid and resolves to an existing but
deactivated user, the `try` body of `get_current_user` does raise the distinct
InactiveAccount failure, but the surrounding `except Exception` clause converts
it, so `get_current_user` observably fails Unauthorized — contradicting the
claim that the InactiveAccount failure (not Unauthorized) is surfaced. The
missing-credential and unresolvable-credential cases do fail Unauthorized as
claimed. -/
theorem c1_inactive_user_observed_as_unauthorized :
    get_current_user_from_token c1_sign 0 c1_db c1_token =
      some { id := 1, username := "alice", is_active := false, is_superuser := false } ∧
    get_current_user_try c1_sign 0 c1_db c1_token = .error .inactiveAccount ∧
    get_current_user c1_sign 0 c1_db (some c1_token) = .error .unauthorized ∧
    get_current_user c1_sign 0 c1_db (some c1_token) ≠ .error .inactiveAccount ∧
    get_current_user c1_sign 0 c1_db none = .error .unauthorized ∧
    get_current_user c1_sign 0 c1_db (some .malformed) = .error .unauthorized := by
  refine ⟨rfl, rfl, rfl, ?_, rfl, rfl⟩
  rw [show get_current_user c1_sign 0 c1_db (some c1_token) = .error .unauthorized from rfl]
  simp

/-! ### C5: featured listing -/

/-- C5: every post returned by the featured listing is both published and
featured (so a featured-but-unpublished post is never returned), and the
returned list is ordered by publish date descending. -/
theorem c5_featured_filter_and_order (db : DB) (limit : Nat) (p : Post)
    (hp : p ∈ get_featured_posts db limit) :
    p.is_published = true ∧ p.is_featured = true ∧
    List.Sorted published_desc (get_featured_posts db limit) := by
  have hsorted :
      List.Sorted published_desc
        ((db.posts.filter (fun q => q.is_published && q.is_featured)).insertionSort
          published_desc) :=
    List.sorted_insertionSort published_desc _
  have hmem : p ∈ db.posts.filter (fun q => q.is_published && q.is_featured) := by
    have h1 :
        p ∈ (db.posts.filter (fun q => q.is_published && q.is_featured)).insertionSort
          published_desc :=
      List.take_subset _ _ hp
    exact (List.perm_insertionSort published_desc _).mem_iff.mp h1
  have hflags := List.of_mem_filter hmem
  rw [Bool.and_eq_true] at hflags
  exact ⟨hflags.1, hflags.2, List.Pairwise.sublist (List.take_sublist _ _) hsorted⟩

/-- A store with one published featured post for the C5 witness. -/
def c5_db : DB :=
  { users := []
    categories := []
    posts := [{ id := 1, title := "t", slug := "t", excerpt := none, content := "c",
                image_url := none, published_at := some 3, is_published := true,
                is_featured := true, meta_title := none, meta_description := none,
                author_id := 1, categories := [] },
              { id := 2, title := "u", slug := "u", excerpt := none, content := "c",
                image_url := none, published_at := some 9, is_published := false,
                is_featured := true, meta_title := none, meta_description := none,
                author_id := 1, categories := [] }] }

/-- Witness for C5 at a concrete store: the published featured post is
returned and satisfies both flags. -/
theorem c5_witness :
    c5_db.posts.get ⟨0, by decide⟩ ∈ get_featured_posts c5_db 5 ∧
    ((c5_db.posts.get ⟨0, by decide⟩).is_published = true ∧
     (c5_db.posts.get ⟨0, by decide⟩).is_featured = true ∧
     List.Sorted published_desc (get_featured_posts c5_db 5)) :=
  ⟨by decide, c5_featured_filter_and_order c5_db 5 _ (by decide)⟩

/-! ### C10: popular categories -/

/-- C10: every category returned by the popularity listing has at least one
post association; a category with zero associations is absent from the result
for every store state and limit. -/
theorem c10_popular_only_associated (db : DB) (limit : Nat) (c : Category)
    (hc : c ∈ get_popular_categories db limit) :
    0 < assoc_count db c.id ∧ ∃ p ∈ db.posts, c.id ∈ p.categories := by
  have hmem : c ∈ db.categories.filter (fun d => assoc_count db d.id != 0) := by
    have h1 :
        c ∈ (db.categories.filter (fun d => assoc_count db d.id != 0)).insertionSort
          (popular_desc db) :=
      List.take_subset _ _ hc
    exact (List.perm_insertionSort (popular_desc db) _).mem_iff.mp h1
  have hcount := List.of_mem_filter hmem
  rw [bne_iff_ne] at hcount
  have hpos : 0 < assoc_count db c.id := Nat.pos_of_ne_zero hcount
  have hflat : c.id ∈ db.posts.flatMap (fun p => p.categories) := by
    have := List.count_pos_iff.mp hpos
    simpa [assoc_count] using hpos
  rcases List.mem_flatMap.mp hflat with ⟨p, hp, hcp⟩
  exact ⟨hpos, p, hp, hcp⟩

/-- A store where category 1 has one association and category 2 has none, for
the C10 witness. -/
def c10_db : DB :=
  { users := []
    categories := [{ id := 1, name := "tech", slug := "tech", description := none, color := none },
                   { id := 2, name := "life", slug := "life", description := none, color := none }]
    posts := [{ id := 1, title := "t", slug := "t", excerpt := none, content := "c",
                image_url := none, published_at := none, is_published := true,
                is_featured := false, meta_title := none, meta_description := none,
                author_id := 1, categories := [1] }] }

/-- Witness for C10 at a concrete store: the associated category is returned
with a positive association count. -/
theorem c10_witness :
    c10_db.categories.get ⟨0, by decide⟩ ∈ get_popular_categories c10_db 10 ∧
    (0 < assoc_count c10_db (c10_db.categories.get ⟨0, by decide⟩).id ∧
     ∃ p ∈ c10_db.posts, (c10_db.categories.get ⟨0, by decide⟩).id ∈ p.categories) :=
  ⟨by decide, c10_popular_only_associated c10_db 10 _ (by decide)⟩

/-! ### C7: pagination arithmetic -/

/-- C7: for `page ≥ 1` and `size ≥ 1` the offset handed to the service is
`(page-1)*size`; the reported page count is the ceiling of `total/size`
(characterized as the least `n` with `total ≤ n*size`, and evaluating to 3 at
`total = 23, size = 10`); and a service-level listing whose offset is at or
beyond the number of rows returns the empty list rather than failing. -/
theorem c7_pagination_arithmetic (page size total n skip limit : Nat) (db : DB)
    (hpage : 1 ≤ page) (hsize : 1 ≤ size) :
    pagination_skip page size = (page - 1) * size ∧
    total ≤ pagination_pages total size * size ∧
    (total ≤ n * size → pagination_pages total size ≤ n) ∧
    pagination_pages 23 10 = 3 ∧
    (db.posts.length ≤ skip → get_multi db skip limit = []) := by
  refine ⟨rfl, ?_, ?_, by decide, ?_⟩
  · have h := Nat.div_add_mod (total + size - 1) size
    have hr : (total + size - 1) % size < size := Nat.mod_lt _ hsize
    unfold pagination_pages
    rw [Nat.mul_comm]
    generalize size * ((total + size - 1) / size) = m at h
    omega
  · intro hn
    have hlt : total + size - 1 < (n + 1) * size := by
      rw [Nat.succ_mul]
      generalize n * size = m at hn
      omega
    exact Nat.lt_succ_iff.mp ((Nat.div_lt_iff_lt_mul hsize).mpr hlt)
  · intro hskip
    unfold get_multi
    rw [List.drop_eq_nil_of_le hskip, List.take_nil]

/-- A two-post store for the C7 witness. -/
def c7_db : DB :=
  { users := []
    categories := []
    posts := [{ id := 1, title := "t", slug := "t", excerpt := none, content := "c",
                image_url := none, published_at := none, is_published := true,
                is_featured := false, meta_title := none, meta_description := none,
                author_id := 1, categories := [] },
              { id := 2, title := "u", slug := "u", excerpt := none, content := "c",
                image_url := none, published_at := none, is_published := true,
                is_featured := false, meta_title := none, meta_description := none,
                author_id := 1, categories := [] }] }

/-- Witness for C7 at `page = 4, size = 10, total = 23` and a concrete store
paged past its last row. -/
theorem c7_witness :
    pagination_skip 4 10 = (4 - 1) * 10 ∧
    23 ≤ pagination_pages 23 10 * 10 ∧
    pagination_pages 23 10 ≤ 3 ∧
    pagination_pages 23 10 = 3 ∧
    get_multi c7_db 30 10 = [] := by
  obtain ⟨a, b, c, d, e⟩ :=
    c7_pagination_arithmetic 4 10 23 3 30 10 c7_db (by decide) (by decide)
  exact ⟨a, b, c (by decide), d, e (by decide)⟩

/-! ### Category resolution counting lemmas -/

lemma mem_resolve_iff (db : DB) (ids : List Nat) (c : Category) :
    c ∈ resolve_categories db ids ↔ c ∈ db.categories ∧ c.id ∈ ids := by
  simp [resolve_categories, List.mem_filter]

lemma resolve_map_id_nodup (db : DB) (ids : List Nat)
    (hdb : (db.categories.map Category.id).Nodup) :
    ((resolve_categories db ids).map Category.id).Nodup :=
  hdb.sublist ((List.filter_sublist db.categories).map Category.id)

/-- When the supplied ids are pairwise distinct and each resolves to a stored
category (stored ids being unique), the resolved rows are exactly as many as
the supplied ids. -/
lemma resolve_length_eq (db : DB) (ids : List Nat)
    (hdb : (db.categories.map Category.id).Nodup) (hids : ids.Nodup)
    (hall : ∀ cid ∈ ids, ∃ c ∈ db.categories, c.id = cid) :
    (resolve_categories db ids).length = ids.length := by
  have hnd := resolve_map_id_nodup db ids hdb
  have hperm : List.Perm ((resolve_categories db ids).map Category.id) ids := by
    rw [List.perm_ext_iff_of_nodup hnd hids]
    intro a
    constructor
    · intro ha
      rcases List.mem_map.mp ha with ⟨c, hc, rfl⟩
      exact ((mem_resolve_iff db ids c).mp hc).2
    · intro ha
      rcases hall a ha with ⟨c, hc, hceq⟩
      rw [← hceq]
      exact List.mem_map_of_mem _ ((mem_resolve_iff db ids c).mpr ⟨hc, hceq ▸ ha⟩)
  simpa using hperm.length_eq

/-- When the supplied ids contain a duplicate, the resolved rows are strictly
fewer than the supplied ids, whatever they resolve to. -/
lemma resolve_length_lt (db : DB) (ids : List Nat)
    (hdb : (db.categories.map Category.id).Nodup) (hdup : ¬ ids.Nodup) :
    (resolve_categories db ids).length < ids.length := by
  have hnd := resolve_map_id_nodup db ids hdb
  have hsub : (resolve_categories db ids).map Category.id ⊆ ids.dedup := by
    intro a ha
    rcases List.mem_map.mp ha with ⟨c, hc, rfl⟩
    exact List.mem_dedup.mpr ((mem_resolve_iff db ids c).mp hc).2
  have h4 : ((resolve_categories db ids).map Category.id).length ≤ ids.dedup.length :=
    (List.subperm_of_subset hnd hsub).length_le
  have h5 : ids.dedup.length < ids.length := by
    rcases Nat.lt_or_ge ids.dedup.length ids.length with h | h
    · exact h
    · exfalso
      have hlen : ids.dedup.length = ids.length :=
        Nat.le_antisymm (ids.dedup_sublist.length_le) h
      exact hdup (List.dedup_eq_self.mp (ids.dedup_sublist.eq_of_length hlen))
  have hml : ((resolve_categories db ids).map Category.id).length =
      (resolve_categories db ids).length := by simp
  omega

/-! ### C9: duplicate category ids are rejected -/

/-- C9: an input whose category id list names an existing category more than
once fails ValidationError in both `create_post` (fresh slug) and `update_post`
(existing post, no slug change), even though every referenced category exists,
because the count of resolved rows is compared with the length of the id
list. -/
theorem c9_duplicate_category_ids_rejected
    (db : DB) (post_in : PostCreate) (author_id pid : Nat) (post : Post)
    (u : PostUpdate) (ids : List Nat)
    (hdb : (db.categories.map Category.id).Nodup)
    (hslug : get_by_slug db post_in.slug = none)
    (hall : ∀ cid ∈ post_in.category_ids, ∃ c ∈ db.categories, c.id = cid)
    (hdup : ¬ post_in.category_ids.Nodup)
    (hfound : get_post db pid = some post)
    (hids : u.category_ids = some ids)
    (huslug : u.slug = none)
    (hall2 : ∀ cid ∈ ids, ∃ c ∈ db.categories, c.id = cid)
    (hdup2 : ¬ ids.Nodup) :
    create_post db post_in author_id = .error .validationError ∧
    update_post db pid u = .error .validationError := by
  constructor
  · have hlt := resolve_length_lt db post_in.category_ids hdb hdup
    have hne : post_in.category_ids.isEmpty = false := by
      cases h : post_in.category_ids with
      | nil => rw [h] at hdup; exact absurd List.nodup_nil hdup
      | cons a l => rfl
    simp [create_post, hslug, hne, Nat.ne_of_lt hlt]
  · have hlt := resolve_length_lt db ids hdb hdup2
    have hnc : post_slug_conflict db post u = false := by
      simp [post_slug_conflict, huslug]
    simp [update_post, hfound, hnc, hids, Nat.ne_of_lt hlt]

/-- A store with one category (id 1) and one post (id 10) for the C9 witness. -/
def c9_db : DB :=
  { users := []
    categories := [{ id := 1, name := "tech", slug := "tech", description := none, color := none }]
    posts := [{ id := 10, title := "t", slug := "t", excerpt := none, content := "c",
                image_url := none, published_at := none, is_published := true,
                is_featured := false, meta_title := none, meta_description := none,
                author_id := 1, categories := [] }] }

/-- A create input naming existing category 1 twice. -/
def c9_input : PostCreate :=
  { title := "n", slug := "n", excerpt := none, content := "c", image_url := none,
    meta_title := none, meta_description := none, category_ids := [1, 1],
    published_at := none, is_published := false, is_featured := false }

/-- An update input naming existing category 1 twice. -/
def c9_update : PostUpdate := { category_ids := some [1, 1] }

/-- Witness for C9 at the concrete duplicate-id inputs. -/
theorem c9_witness :
    create_post c9_db c9_input 7 = .error .validationError ∧
    update_post c9_db 10 c9_update = .error .validationError :=
  c9_duplicate_category_ids_rejected c9_db c9_input 7 10
    (c9_db.posts.get ⟨0, by decide⟩) c9_update [1, 1]
    (by decide) (by decide) (by decide) (by decide) (by decide) rfl rfl
    (by decide) (by decide)

/-! ### C3: create_post (corrected) -/

/-- A store with exactly one category (id 1) and no posts. -/
def c3_db : DB :=
  { users := []
    categories := [{ id := 1, name := "tech", slug := "tech", description := none, color := none }]
    posts := [] }

/-- A create input with a fresh slug whose category id list names the existing
category 1 twice. -/
def c3_input : PostCreate :=
  { title := "t", slug := "fresh", excerpt := none, content := "c", image_url := none,
    meta_title := none, meta_description := none, category_ids := [1, 1],
    published_at := none, is_published := false, is_featured := false }

/-- C3 counterexample: at a fresh slug and the id list `[1, 1]` whose every
element resolves to the existing category 1, `create_post` fails
ValidationError instead of persisting a post, refuting the claim's "otherwise
it persists exactly one post". -/
theorem c3_counterexample :
    c3_input.category_ids = [1, 1] ∧
    get_category c3_db 1 = some { id := 1, name := "tech", slug := "tech",
                                  description := none, color := none } ∧
    get_by_slug c3_db c3_input.slug = none ∧
    create_post c3_db c3_input 7 = .error .validationError :=
  ⟨rfl, rfl, rfl, rfl⟩

/-- C3 amended: Conflict when the slug exists; ValidationError when category
ids were supplied and the count of resolved rows differs from the count of
supplied ids (in particular when some id does not resolve, or when a resolving
id is repeated), with nothing persisted; and when the supplied ids are
pairwise distinct and each resolves (stored category ids being unique), exactly
one post is appended, carrying the given author id and associated with exactly
the resolved categories. -/
theorem c3_amended_create_post (db : DB) (post_in : PostCreate) (author_id : Nat) :
    (∀ p, get_by_slug db post_in.slug = some p →
      create_post db post_in author_id = .error .conflict) ∧
    (get_by_slug db post_in.slug = none →
      post_in.category_ids.isEmpty = false →
      (resolve_categories db post_in.category_ids).length ≠ post_in.category_ids.length →
      create_post db post_in author_id = .error .validationError) ∧
    (get_by_slug db post_in.slug = none →
      (db.categories.map Category.id).Nodup →
      post_in.category_ids.Nodup →
      (∀ cid ∈ post_in.category_ids, ∃ c ∈ db.categories, c.id = cid) →
      ∃ newp,
        create_post db post_in author_id =
          .ok ({ db with posts := db.posts ++ [newp] }, newp) ∧
        newp.author_id = author_id ∧ newp.slug = post_in.slug ∧
        newp.categories = (resolve_categories db post_in.category_ids).map Category.id) := by
  refine ⟨?_, ?_, ?_⟩
  · intro p hp
    simp [create_post, hp]
  · intro h0 h1 h2
    simp [create_post, h0, h1, h2]
  · intro h0 hdb hids hall
    by_cases he : post_in.category_ids.isEmpty
    · refine ⟨created_post db post_in author_id [], ?_, rfl, rfl, ?_⟩
      · simp [create_post, h0, he]
      · have hnil : post_in.category_ids = [] := List.isEmpty_iff.mp he
        simp [created_post, hnil, resolve_categories]
    · have hlen := resolve_length_eq db post_in.category_ids hdb hids hall
      refine ⟨created_post db post_in author_id (resolve_categories db post_in.category_ids),
        ?_, rfl, rfl, rfl⟩
      simp [create_post, h0, he, hlen]

/-- Witness for the C3 amended theorem: its ValidationError branch applied at
the concrete duplicate-id input. -/
theorem c3_amended_witness :
    create_post c3_db c3_input 7 = .error .validationError :=
  (c3_amended_create_post c3_db c3_input 7).2.1 rfl (by decide) (by decide)

/-! ### C2: partial update frame -/

/-- C2: the generic update merge changes exactly the fields explicitly present
in the input — every absent field keeps its prior stored value, a nullable
field present with a null value is cleared — and a title-only `update_post`
returns the stored post with only its title changed: slug, content, category
associations and the published/featured flags are identical to their pre-update
values. -/
theorem c2_partial_update_frame (db : DB) (post_id : Nat) (post : Post)
    (u : PostUpdate) (t : String)
    (hfound : get_post db post_id = some post) :
    (u.title = none → (apply_post_update post u).title = post.title) ∧
    (u.slug = none → (apply_post_update post u).slug = post.slug) ∧
    (u.excerpt = none → (apply_post_update post u).excerpt = post.excerpt) ∧
    (u.content = none → (apply_post_update post u).content = post.content) ∧
    (u.image_url = none → (apply_post_update post u).image_url = post.image_url) ∧
    (u.published_at = none → (apply_post_update post u).published_at = post.published_at) ∧
    (u.is_published = none → (apply_post_update post u).is_published = post.is_published) ∧
    (u.is_featured = none → (apply_post_update post u).is_featured = post.is_featured) ∧
    (u.meta_title = none → (apply_post_update post u).meta_title = post.meta_title) ∧
    (u.meta_description = none →
      (apply_post_update post u).meta_description = post.meta_description) ∧
    (apply_post_update post u).categories = post.categories ∧
    (apply_post_update post u).author_id = post.author_id ∧
    (u.excerpt = some none → (apply_post_update post u).excerpt = none) ∧
    (u.image_url = some none → (apply_post_update post u).image_url = none) ∧
    update_post db post_id { title := some t } =
      .ok (replace_post db { post with title := t }, { post with title := t }) := by
  refine ⟨?_, ?_, ?_, ?_, ?_, ?_, ?_, ?_, ?_, ?_, rfl, rfl, ?_, ?_, ?_⟩
  all_goals try (intro h; simp [apply_post_update, h])
  have hnc : post_slug_conflict db post { title := some t } = false := rfl
  simp [update_post, hfound, hnc, apply_post_update]

/-- A store with one post (id 10) having a non-null excerpt, for the C2
witness. -/
def c2_db : DB :=
  { users := []
    categories := []
    posts := [{ id := 10, title := "t", slug := "s", excerpt := some "e", content := "c",
                image_url := none, published_at := some 1, is_published := true,
                is_featured := true, meta_title := none, meta_description := none,
                author_id := 1, categories := [3] }] }

/-- The stored post of `c2_db`. -/
def c2_post : Post := c2_db.posts.get ⟨0, by decide⟩

/-- An update input that explicitly sets `excerpt` to null and nothing else. -/
def c2_update : PostUpdate := { excerpt := some none }

/-- Witness for C2: at the concrete store, updating only the title via
`update_post` keeps every other field, and a present-null excerpt clears the
stored excerpt. -/
theorem c2_witness :
    (apply_post_update c2_post c2_update).slug = c2_post.slug ∧
    (apply_post_update c2_post c2_update).excerpt = none ∧
    update_post c2_db 10 { title := some "new" } =
      .ok (replace_post c2_db { c2_post with title := "new" },
           { c2_post with title := "new" }) := by
  obtain ⟨_, hslug, _, _, _, _, _, _, _, _, _, _, hclear, _, htitle⟩ :=
    c2_partial_update_frame c2_db 10 c2_post c2_update "new" (by decide)
  exact ⟨hslug rfl, hclear rfl, htitle⟩

/-! ### C4: update uniqueness conflicts only with a different entity -/

lemma category_slug_conflict_spec (db : DB) (cat : Category) (u : CategoryUpdate)
    (h : category_slug_conflict db cat u = true) :
    ∃ other ∈ db.categories, other.id ≠ cat.id ∧ u.slug = some other.slug := by
  unfold category_slug_conflict at h
  split at h
  next => exact absurd h (by simp)
  next s hu =>
    split at h
    · exact absurd h (by simp)
    · split at h
      next => exact absurd h (by simp)
      next ex hf =>
        have hmem := List.mem_of_find?_eq_some hf
        have hslug : ex.slug = s := by
          have := List.find?_some hf
          simpa using this
        exact ⟨ex, hmem, by simpa using h, by rw [hu, hslug]⟩

lemma category_name_conflict_spec (db : DB) (cat : Category) (u : CategoryUpdate)
    (h : category_name_conflict db cat u = true) :
    ∃ other ∈ db.categories, other.id ≠ cat.id ∧ u.name = some other.name := by
  unfold category_name_conflict at h
  split at h
  next => exact absurd h (by simp)
  next n hu =>
    split at h
    · exact absurd h (by simp)
    · split at h
      next => exact absurd h (by simp)
      next ex hf =>
        have hmem := List.mem_of_find?_eq_some hf
        have hname : ex.name = n := by
          have := List.find?_some hf
          simpa using this
        exact ⟨ex, hmem, by simpa using h, by rw [hu, hname]⟩

lemma post_slug_conflict_spec (db : DB) (post : Post) (pu : PostUpdate)
    (h : post_slug_conflict db post pu = true) :
    ∃ other ∈ db.posts, other.id ≠ post.id ∧ pu.slug = some other.slug := by
  unfold post_slug_conflict at h
  split at h
  next => exact absurd h (by simp)
  next s hu =>
    split at h
    · exact absurd h (by simp)
    · split at h
      next => exact absurd h (by simp)
      next ex hf =>
        have hmem := List.mem_of_find?_eq_some hf
        have hslug : ex.slug = s := by
          have := List.find?_some hf
          simpa using this
        exact ⟨ex, hmem, by simpa using h, by rw [hu, hslug]⟩

/-- C4: `update_category` fails NotFound exactly when the id is absent; a
Conflict outcome implies a *different* existing category carries the supplied
slug or name; supplying the category's own current slug and name succeeds; and
for `update_post`, a Conflict implies a different post carries the supplied
slug while supplying the post's own current slug never yields Conflict. -/
theorem c4_update_self_collision_allowed (db : DB) (cid pid : Nat)
    (cat : Category) (post : Post) (u : CategoryUpdate) (pu : PostUpdate) (i : Nat)
    (hcat : get_category db cid = some cat)
    (hpost : get_post db pid = some post) :
    (get_category db i = none → ∀ v, update_category db i v = .error .notFound) ∧
    (update_category db cid u = .error .conflict →
      ∃ other ∈ db.categories, other.id ≠ cat.id ∧
        (u.slug = some other.slug ∨ u.name = some other.name)) ∧
    (u.slug = some cat.slug → u.name = some cat.name →
      update_category db cid u =
        .ok (replace_category db (apply_category_update cat u),
             apply_category_update cat u)) ∧
    (update_post db pid pu = .error .conflict →
      ∃ other ∈ db.posts, other.id ≠ post.id ∧ pu.slug = some other.slug) ∧
    (pu.slug = some post.slug → update_post db pid pu ≠ .error .conflict) := by
  refine ⟨?_, ?_, ?_, ?_, ?_⟩
  · intro h v
    simp [update_category, h]
  · intro h
    by_cases h1 : category_slug_conflict db cat u = true
    · rcases category_slug_conflict_spec db cat u h1 with ⟨o, ho, hne, hs⟩
      exact ⟨o, ho, hne, Or.inl hs⟩
    · by_cases h2 : category_name_conflict db cat u = true
      · rcases category_name_conflict_spec db cat u h2 with ⟨o, ho, hne, hs⟩
        exact ⟨o, ho, hne, Or.inr hs⟩
      · exfalso
        rw [Bool.not_eq_true] at h1 h2
        simp [update_category, hcat, h1, h2] at h
  · intro hs hn
    have h1 : category_slug_conflict db cat u = false := by
      simp [category_slug_conflict, hs]
    have h2 : category_name_conflict db cat u = false := by
      simp [category_name_conflict, hn]
    simp [update_category, hcat, h1, h2]
  · intro h
    by_cases h1 : post_slug_conflict db post pu = true
    · exact post_slug_conflict_spec db post pu h1
    · exfalso
      rw [Bool.not_eq_true] at h1
      simp only [update_post, hpost, h1, Bool.false_eq_true, if_false] at h
      split at h
      · split at h <;> simp_all
      · simp_all
  · intro hs h
    have h1 : post_slug_conflict db post pu = false := by
      simp [post_slug_conflict, hs]
    simp only [update_post, hpost, h1, Bool.false_eq_true, if_false] at h
    split at h
    · split at h <;> simp_all
    · simp_all

/-- A store with two categories and two posts for the C4 witness. -/
def c4_db : DB :=
  { users := []
    categories := [{ id := 1, name := "Tech", slug := "tech", description := none, color := none },
                   { id := 2, name := "Life", slug := "life", description := none, color := none }]
    posts := [{ id := 10, title := "t", slug := "a", excerpt := none, content := "c",
                image_url := none, published_at := none, is_published := true,
                is_featured := false, meta_title := none, meta_description := none,
                author_id := 1, categories := [] },
              { id := 11, title := "u", slug := "b", excerpt := none, content := "c",
                image_url := none, published_at := none, is_published := true,
                is_featured := false, meta_title := none, meta_description := none,
                author_id := 1, categories := [] }] }

/-- An update re-supplying category 1's own current name and slug. -/
def c4_u : CategoryUpdate := { name := some "Tech", slug := some "tech" }

/-- An update re-supplying post 10's own current slug. -/
def c4_pu : PostUpdate := { slug := some "a" }

def c4_cat : Category := c4_db.categories.get ⟨0, by decide⟩

def c4_post : Post := c4_db.posts.get ⟨0, by decide⟩

/-- Witness for C4: a missing id fails NotFound, re-supplying the entity's own
slug and name succeeds, and re-supplying a post's own slug is not a Conflict. -/
theorem c4_witness :
    update_category c4_db 99 {} = .error .notFound ∧
    update_category c4_db 1 c4_u =
      .ok (replace_category c4_db (apply_category_update c4_cat c4_u),
           apply_category_update c4_cat c4_u) ∧
    update_post c4_db 10 c4_pu ≠ .error .conflict := by
  obtain ⟨h1, _, h3, _, h5⟩ :=
    c4_update_self_collision_allowed c4_db 1 10 c4_cat c4_post c4_u c4_pu 99
      (by decide) (by decide)
  exact ⟨h1 (by decide) {}, h3 rfl rfl, h5 rfl⟩

end Blog
